import Mathlib

/-!
Shallow embedding of the session/token lifecycle of the express_node
user-account backend (user.controller.js, user.model.js, auth.middleware.js,
user.validate.js, cloudinary.js), together with proofs about the spec's
claims over that embedding.

Conventions of the embedding:
* Database documents are Lean structures; the Mongo collection is a list.
* JWT strings are modelled by the inductive `TokenStr`: a token is either a
  signed claim bundle (payload id, signing secret, issue time) or an
  arbitrary raw string (anything that is not a well-formed signed token).
* `jwt.verify` is modelled by `jwtVerify`, returning the payload id or the
  library's error message ("jwt malformed" / "invalid signature" /
  "jwt expired").
* Thrown `ApiError(status, message)` values and JavaScript runtime
  TypeErrors (which the asyncHandler wrapper forwards to the error handler
  as status-500 responses) are modelled by `ApiErr`.
* `bcrypt` is modelled by an injective digest function.
-/

/-- Error value thrown by the controllers (ApiError.js); a JavaScript
runtime TypeError surfaced through asyncHandler is modelled as status 500. -/
structure ApiErr where
  statusCode : Nat
  message : String
deriving DecidableEq, Repr

/-- A JWT string: either a token signed by `jwt.sign` (payload `_id`,
signing secret, issued-at time) or an arbitrary non-token string. -/
inductive TokenStr where
  | raw (s : String)
  | signed (uid : Nat) (secret : Nat) (iat : Nat)
deriving DecidableEq, Repr

/-- Process environment: ACCESS_TOKEN_SECRET, REFRESH_TOKEN_SECRET,
ACCESS_TOKEN_EXPIRY, REFRESH_TOKEN_EXPIRY. -/
structure Env where
  accessTokenSecret : Nat
  refreshTokenSecret : Nat
  accessTokenExpiry : Nat
  refreshTokenExpiry : Nat
deriving DecidableEq, Repr

/-- jwt.sign(\x7b _id \x7d, secret, \x7b expiresIn \x7d) at time `iat`. -/
def jwtSign (uid secret iat : Nat) : TokenStr :=
  .signed uid secret iat

/-- jwt.verify(token, secret) at time `now` with token lifetime `ttl`:
returns the decoded payload `_id`, or the jsonwebtoken error message. -/
def jwtVerify (t : TokenStr) (secret ttl now : Nat) : Except String Nat :=
  match t with
  | .raw _ => .error "jwt malformed"
  | .signed uid s iat =>
    if s != secret then .error "invalid signature"
    else if iat + ttl < now then .error "jwt expired"
    else .ok uid

/-- JavaScript truthiness of a token-valued expression: undefined, null and
the empty string are falsy; a signed JWT string is never empty. -/
def tokenStrFalsy : TokenStr → Bool
  | .raw s => s == ""
  | .signed _ _ _ => false

/-- JavaScript `s.trim()`: drop leading and trailing whitespace (computed
on the character list). -/
def trimmedChars (s : String) : List Char :=
  ((s.toList.dropWhile Char.isWhitespace).reverse.dropWhile Char.isWhitespace).reverse

/-- `String(token).trim() === "undefined"`: a signed JWT string never trims
to the literal "undefined". -/
def tokenTrimmedUndefined : TokenStr → Bool
  | .raw s => trimmedChars s == "undefined".toList
  | .signed _ _ _ => false

/-- One document of the `users` collection (user.model.js schema). -/
structure UserRec where
  _id : Nat
  username : String
  email : String
  fullName : String
  password : String
  avatar : String
  coverImage : String
  watchHistory : List Nat
  refreshToken : Option TokenStr
deriving DecidableEq, Repr

/-- The document store: the `users` collection and the `subscriptions`
collection (edges (subscriber, channel)). -/
structure DB where
  users : List UserRec
  subs : List (Nat × Nat)
deriving DecidableEq, Repr

/-- User.findById(id). -/
def findById (db : DB) (id : Nat) : Option UserRec :=
  db.users.find? (fun u => u._id == id)

/-- bcrypt.hash(plain, 10), modelled as an injective digest function. -/
def bcryptHash (plain : String) : String :=
  "$2b$10$" ++ plain

/-- bcrypt.compare(plain, digest). -/
def bcryptCompare (plain digest : String) : Bool :=
  digest == bcryptHash plain

/-- Mongoose document validation of the required fields of the user schema
(username, email, fullName, avatar, password are `required: true`). -/
def userRecordValid (u : UserRec) : Bool :=
  u.username != "" && u.email != "" && u.fullName != "" &&
    u.avatar != "" && u.password != ""

/-- Persist a (possibly modified) user document back into the collection,
replacing the document with the same `_id`. -/
def saveUserRecord (db : DB) (u : UserRec) : DB :=
  { db with users := db.users.map (fun v => if v._id == u._id then u else v) }

/-- user.save(\x7b validateBeforeSave \x7d): runs schema validation only when
`validateBeforeSave` is true. -/
def saveUser (db : DB) (u : UserRec) (validateBeforeSave : Bool) : Except ApiErr DB :=
  if validateBeforeSave && !userRecordValid u then
    .error ⟨500, "ValidationError"⟩
  else
    .ok (saveUserRecord db u)

/-- `.select("-password -refreshToken")`: the sanitized account. -/
def sanitizeUser (u : UserRec) : UserRec :=
  { u with password := "", refreshToken := none }

/-- The instance methods actually registered on the user schema.
user.model.js registers generateAccessToken and generateRefreshToken on
`userSchema.methods`; isPasswordCorrect is assigned to `userSchema.method`
(note the missing s), which does not register an instance method, so user
documents do not carry it. -/
def userInstanceMethods : List String :=
  ["generateAccessToken", "generateRefreshToken"]

/-- generateAccessAndRefreshToken(userId) (user.controller.js lines 17-42):
fetch the user, sign both tokens, store the refresh token on the record and
save it with `validateBeforeSave: false`.  Any internal failure (user not
found, save failure) is caught and rethrown as a 500 ApiError. -/
def generateAccessAndRefreshToken (env : Env) (now : Nat) (db : DB) (userId : Nat) :
    Except ApiErr (TokenStr × TokenStr × DB) :=
  match findById db userId with
  | none => .error ⟨500, "Something went wrong while generating refresh and access token"⟩
  | some user =>
    let accessToken := jwtSign user._id env.accessTokenSecret now
    let refreshToken := jwtSign user._id env.refreshTokenSecret now
    let user' := { user with refreshToken := some refreshToken }
    match saveUser db user' false with
    | .error _ => .error ⟨500, "Something went wrong while generating refresh and access token"⟩
    | .ok db' => .ok (accessToken, refreshToken, db')

/-- refreshAccessToken (user.controller.js lines 254-312).  Input is the
incoming refresh token (cookie or body; absent = none).  Errors thrown
inside the try block are caught and rethrown as status 401 with the
original message. -/
def refreshAccessToken (env : Env) (now : Nat) (db : DB) (incoming : Option TokenStr) :
    Except ApiErr (TokenStr × TokenStr) × DB :=
  match incoming with
  | none => (.error ⟨401, "Unauthorized request, refresh token is undefined"⟩, db)
  | some t =>
    if tokenStrFalsy t || tokenTrimmedUndefined t then
      (.error ⟨401, "Unauthorized request, refresh token is undefined"⟩, db)
    else
      match jwtVerify t env.refreshTokenSecret env.refreshTokenExpiry now with
      | .error m => (.error ⟨401, m⟩, db)
      | .ok uid =>
        match findById db uid with
        | none => (.error ⟨401, "Invalid Refresh Token"⟩, db)
        | some user =>
          if some t != user.refreshToken then
            (.error ⟨401, "Refresh token is expired or used"⟩, db)
          else
            match generateAccessAndRefreshToken env now db uid with
            | .error e => (.error ⟨401, e.message⟩, db)
            | .ok (a, r, db') => (.ok (a, r), db')

/-- JavaScript truthiness for an optional string request field: undefined
and the empty string are falsy. -/
def strFalsy : Option String → Bool
  | none => true
  | some s => s == ""

/-- One clause of the mongoose `$or` query.  Mongoose strips keys whose
value is `undefined` from a query filter, so `{ field: undefined }` places
no constraint at all (matches every document). -/
def orClauseMatches (field? : Option String) (value : String) : Bool :=
  match field? with
  | none => true
  | some s => value == s

/-- Successful login payload: the sanitized account (or null if the
re-fetch found nothing) plus both issued tokens. -/
structure LoginOk where
  user : Option UserRec
  accessToken : TokenStr
  refreshToken : TokenStr
deriving DecidableEq, Repr

/-- loginUser (user.controller.js lines 156-219).  The call
`user.isPasswordCorrect(password)` looks up an instance method that
user.model.js failed to register (it was assigned to `userSchema.method`,
not `userSchema.methods`), so at runtime it raises a TypeError, which
asyncHandler surfaces as a 500 error. -/
def loginUser (env : Env) (now : Nat) (db : DB)
    (username? email? : Option String) (password : String) :
    Except ApiErr LoginOk × DB :=
  if strFalsy email? && strFalsy username? then
    (.error ⟨400, "username or email is required"⟩, db)
  else
    match db.users.find? (fun u =>
        orClauseMatches username? u.username || orClauseMatches email? u.email) with
    | none => (.error ⟨404, "User does not exist"⟩, db)
    | some user =>
      if !(userInstanceMethods.contains "isPasswordCorrect") then
        (.error ⟨500, "user.isPasswordCorrect is not a function"⟩, db)
      else
        let isPasswordValid := bcryptCompare password user.password
        if !isPasswordValid then
          (.error ⟨401, "Invalid user credentials"⟩, db)
        else
          match generateAccessAndRefreshToken env now db user._id with
          | .error e => (.error e, db)
          | .ok (a, r, db') =>
            (.ok ⟨(findById db' user._id).map sanitizeUser, a, r⟩, db')

/-- logoutUser (user.controller.js lines 222-251): findByIdAndUpdate with
`$unset: \x7b refreshToken: 1 \x7d` on the authenticated principal, then a
200 response; the result of the update is not inspected. -/
def logoutUser (db : DB) (principalId : Nat) :
    Except ApiErr (Nat × String) × DB :=
  let db' := { db with users := db.users.map (fun u =>
      if u._id == principalId then { u with refreshToken := none } else u) }
  (.ok (200, "User Logged Out"), db')

/-- The token extraction of auth.middleware.js line 17: the accessToken
cookie, falling back to the Authorization header when the cookie is falsy. -/
def extractAccessToken (cookieToken headerToken : Option TokenStr) : Option TokenStr :=
  match cookieToken with
  | some t => if tokenStrFalsy t then headerToken else some t
  | none => headerToken

/-- verifyJwt (auth.middleware.js lines 14-46): extract the token, verify
it against the access secret, load the referenced account sans sensitive
fields; every failure is rethrown from the catch block as status 401
carrying the original error message. -/
def verifyJwt (env : Env) (now : Nat) (db : DB)
    (cookieToken headerToken : Option TokenStr) : Except ApiErr UserRec :=
  match extractAccessToken cookieToken headerToken with
  | none => .error ⟨401, "Unauthorized request"⟩
  | some t =>
    if tokenStrFalsy t then .error ⟨401, "Unauthorized request"⟩
    else
      match jwtVerify t env.accessTokenSecret env.accessTokenExpiry now with
      | .error m => .error ⟨401, m⟩
      | .ok uid =>
        match findById db uid with
        | none => .error ⟨401, "Invalid Access Token"⟩
        | some user => .ok (sanitizeUser user)

/-- subscribeChannel (user.controller.js lines 659-697). -/
def subscribeChannel (db : DB) (subscriberId : Nat) (channelId? : Option Nat) :
    Except ApiErr (Nat × Nat) × DB :=
  match channelId? with
  | none => (.error ⟨400, "Channel ID is required."⟩, db)
  | some channelId =>
    if subscriberId == channelId then
      (.error ⟨400, "You cannot subscribe to your own channel."⟩, db)
    else
      match findById db channelId with
      | none => (.error ⟨400, "Channel not found."⟩, db)
      | some _ =>
        if db.subs.contains (subscriberId, channelId) then
          (.error ⟨400, "Already subscribed to this channel."⟩, db)
        else
          (.ok (subscriberId, channelId),
            { db with subs := (subscriberId, channelId) :: db.subs })

/-- JavaScript `s.trim() === ""`: the string is blank (empty or whitespace
only). -/
def isBlank (s : String) : Bool :=
  s.toList.all (fun c => c.isWhitespace)

/-- Regex test /[A-Z]/. -/
def hasUppercaseChar (s : String) : Bool :=
  s.toList.any (fun c => 'A' ≤ c && c ≤ 'Z')

/-- Regex test /[a-z]/. -/
def hasLowercaseChar (s : String) : Bool :=
  s.toList.any (fun c => 'a' ≤ c && c ≤ 'z')

/-- Regex test /[0-9]/. -/
def hasDigitChar (s : String) : Bool :=
  s.toList.any (fun c => '0' ≤ c && c ≤ '9')

/-- The fixed special-character set of the password rule (the characters
enumerated in the regex character class of user.validate.js line 65). -/
def passwordSpecialChars : List Char :=
  ['!', '@', '#', '$', '%', '^', '&', '*', '(', ')', '_', '+',
   '\x7b', '\x7d', '[', ']', ':', ';', '<', '>', ',', '.', '?', '~', '\\', '/', '-']

/-- Regex test for at least one special character from the fixed set. -/
def hasSpecialChar (s : String) : Bool :=
  s.toList.any (fun c => passwordSpecialChars.contains c)

/-- Regex test /^[a-zA-Z0-9_]+$/. -/
def usernameCharsOk (s : String) : Bool :=
  s.length > 0 && s.toList.all (fun c => c.isAlpha || c.isDigit || c == '_')

/-- Regex test /^\S+@\S+\.\S+$/: no whitespace anywhere, an '@' preceded by
at least one character, and after it a '.' with at least one character on
each side. -/
def emailFormatOk (s : String) : Bool :=
  let cs := s.toList
  cs.all (fun c => !c.isWhitespace) &&
    (List.range cs.length).any (fun i =>
      1 ≤ i && cs.getD i ' ' == '@' &&
      (List.range cs.length).any (fun j =>
        i + 2 ≤ j && j + 2 ≤ cs.length && cs.getD j ' ' == '.'))

/-- Full-name section of validateRegistrationInput (user.validate.js). -/
def fullNameErrors (fullName : String) : List String :=
  if isBlank fullName then
    ["- fullName is required and should not be empty."]
  else if fullName.length < 3 || fullName.length > 50 then
    ["- fullName must be between 3 and 50 characters."]
  else []

/-- Username section of validateRegistrationInput (user.validate.js). -/
def usernameErrors (username : String) : List String :=
  if isBlank username then
    ["- username is required and should not be empty."]
  else if !usernameCharsOk username then
    ["- username can only contain letters, numbers, and underscores."]
  else if username.length < 3 || username.length > 30 then
    ["- username must be between 3 and 30 characters."]
  else []

/-- Email section of validateRegistrationInput (user.validate.js). -/
def emailErrors (email : String) : List String :=
  if isBlank email then
    ["- email is required and should not be empty."]
  else if !emailFormatOk email then
    ["- email must be a valid email address."]
  else []

/-- Password section of validateRegistrationInput (user.validate.js): a
blank password yields only the required-message; otherwise each failed
check pushes its own message. -/
def passwordErrors (password : String) : List String :=
  if isBlank password then
    ["- password is required and should not be empty."]
  else
    (if password.length < 8 || password.length > 100 then
      ["- password must be between 8 and 100 characters."] else []) ++
    (if !hasUppercaseChar password then
      ["- password must contain at least one uppercase letter."] else []) ++
    (if !hasLowercaseChar password then
      ["- password must contain at least one lowercase letter."] else []) ++
    (if !hasDigitChar password then
      ["- password must contain at least one number."] else []) ++
    (if !hasSpecialChar password then
      ["- password must contain at least one special character."] else [])

/-- validateRegistrationInput (user.validate.js): the four sections push
their messages into one list in source order. -/
def validateRegistrationInput (fullName username email password : String) : List String :=
  fullNameErrors fullName ++ usernameErrors username ++
    emailErrors email ++ passwordErrors password

/-- Spec-side statement of the password acceptance rule: length between 8
and 100 and at least one uppercase letter, lowercase letter, digit and
special character from the fixed set. -/
def specPasswordAccepted (password : String) : Bool :=
  (8 ≤ password.length && password.length ≤ 100) &&
    hasUppercaseChar password && hasLowercaseChar password &&
    hasDigitChar password && hasSpecialChar password

/-- registerUser (user.controller.js lines 48-153).  `freshId` is the `_id`
the store assigns to the created document; `uploadOracle` maps a local file
path to the hosted URL, or none when the upload fails. -/
def registerUser (db : DB) (uploadOracle : String → Option String) (freshId : Nat)
    (fullName username email password : String) (avatarPath? coverPath? : Option String) :
    Except ApiErr UserRec × DB :=
  let validationErrors := validateRegistrationInput fullName username email password
  if validationErrors != [] then
    (.error ⟨400, "\n\n" ++ String.intercalate "\n" validationErrors ++ "\n\n"⟩, db)
  else
    match db.users.find? (fun u => u.username == username || u.email == email) with
    | some _ => (.error ⟨409, "Email or Username already exists"⟩, db)
    | none =>
      match avatarPath? with
      | none => (.error ⟨400, "Avatar file is required"⟩, db)
      | some avatarPath =>
        match uploadOracle avatarPath with
        | none => (.error ⟨400, "Avatar file is required"⟩, db)
        | some avatarUrl =>
          let coverUrl := ((coverPath?.bind uploadOracle).getD "")
          let user : UserRec :=
            { _id := freshId, username := username.toLower, email := email,
              fullName := fullName, password := bcryptHash password,
              avatar := avatarUrl, coverImage := coverUrl,
              watchHistory := [], refreshToken := none }
          let db' := { db with users := db.users ++ [user] }
          match findById db' freshId with
          | none => (.error ⟨500, "Something went wrong while registering the user"⟩, db')
          | some createdUser => (.ok (sanitizeUser createdUser), db')

/-- A call to the media-storage collaborator, in execution order. -/
inductive MediaEvent where
  | deleteAsset (url : String)
  | uploadAsset (localPath : String)
deriving DecidableEq, Repr

/-- Outcome of an avatar / cover-image replacement: the controller result,
the document store, the set of live hosted assets, and the ordered trace of
media-storage calls. -/
structure MediaOutcome where
  result : Except ApiErr (Nat × String)
  db : DB
  assets : List String
  trace : List MediaEvent
deriving Repr

/-- changeUserAvatar (user.controller.js lines 413-463): read the stored
avatar URL, delete that asset when present (deletFromCloudinary throws a
404 ApiError when the destroy call fails), then upload the replacement and
persist its URL.  A failed upload returns null, so the following
`avatarImage.url` access raises a TypeError (500). -/
def changeUserAvatar (db : DB) (assets : List String)
    (uploadOracle : String → Option String) (deleteOracle : String → Bool)
    (principalId : Nat) (filePath? : Option String) : MediaOutcome :=
  match filePath? with
  | none => ⟨.error ⟨400, "Avatar image file is missing"⟩, db, assets, []⟩
  | some path =>
    match findById db principalId with
    | none => ⟨.error ⟨500, "Cannot read properties of null (reading 'avatar')"⟩, db, assets, []⟩
    | some user =>
      if user.avatar != "" then
        if deleteOracle user.avatar then
          let assets₁ := assets.erase user.avatar
          match uploadOracle path with
          | none =>
            ⟨.error ⟨500, "Cannot read properties of null (reading 'url')"⟩, db, assets₁,
              [.deleteAsset user.avatar, .uploadAsset path]⟩
          | some url =>
            if url == "" then
              ⟨.error ⟨400, "Error while uploading the avatar to Cloudinary"⟩, db,
                url :: assets₁, [.deleteAsset user.avatar, .uploadAsset path]⟩
            else
              ⟨.ok (200, "Avatar Updated Successfully"),
                { db with users := db.users.map (fun v =>
                    if v._id == principalId then { v with avatar := url } else v) },
                url :: assets₁, [.deleteAsset user.avatar, .uploadAsset path]⟩
        else
          ⟨.error ⟨404, "Failed to delete file from cloudinary"⟩, db, assets,
            [.deleteAsset user.avatar]⟩
      else
        match uploadOracle path with
        | none =>
          ⟨.error ⟨500, "Cannot read properties of null (reading 'url')"⟩, db, assets,
            [.uploadAsset path]⟩
        | some url =>
          if url == "" then
            ⟨.error ⟨400, "Error while uploading the avatar to Cloudinary"⟩, db,
              url :: assets, [.uploadAsset path]⟩
          else
            ⟨.ok (200, "Avatar Updated Successfully"),
              { db with users := db.users.map (fun v =>
                  if v._id == principalId then { v with avatar := url } else v) },
              url :: assets, [.uploadAsset path]⟩

/-- changeUserCoverImage (user.controller.js lines 466-516): identical
shape to changeUserAvatar over the coverImage field (its success message is
the same copied string). -/
def changeUserCoverImage (db : DB) (assets : List String)
    (uploadOracle : String → Option String) (deleteOracle : String → Bool)
    (principalId : Nat) (filePath? : Option String) : MediaOutcome :=
  match filePath? with
  | none => ⟨.error ⟨400, "Cover image file is missing"⟩, db, assets, []⟩
  | some path =>
    match findById db principalId with
    | none => ⟨.error ⟨500, "Cannot read properties of null (reading 'coverImage')"⟩, db, assets, []⟩
    | some user =>
      if user.coverImage != "" then
        if deleteOracle user.coverImage then
          let assets₁ := assets.erase user.coverImage
          match uploadOracle path with
          | none =>
            ⟨.error ⟨500, "Cannot read properties of null (reading 'url')"⟩, db, assets₁,
              [.deleteAsset user.coverImage, .uploadAsset path]⟩
          | some url =>
            if url == "" then
              ⟨.error ⟨400, "Error while uploading the cover image to Cloudinary"⟩, db,
                url :: assets₁, [.deleteAsset user.coverImage, .uploadAsset path]⟩
            else
              ⟨.ok (200, "Avatar Updated Successfully"),
                { db with users := db.users.map (fun v =>
                    if v._id == principalId then { v with coverImage := url } else v) },
                url :: assets₁, [.deleteAsset user.coverImage, .uploadAsset path]⟩
        else
          ⟨.error ⟨404, "Failed to delete file from cloudinary"⟩, db, assets,
            [.deleteAsset user.coverImage]⟩
      else
        match uploadOracle path with
        | none =>
          ⟨.error ⟨500, "Cannot read properties of null (reading 'url')"⟩, db, assets,
            [.uploadAsset path]⟩
        | some url =>
          if url == "" then
            ⟨.error ⟨400, "Error while uploading the cover image to Cloudinary"⟩, db,
              url :: assets, [.uploadAsset path]⟩
          else
            ⟨.ok (200, "Avatar Updated Successfully"),
              { db with users := db.users.map (fun v =>
                  if v._id == principalId then { v with coverImage := url } else v) },
              url :: assets, [.uploadAsset path]⟩

/-- The gate of refreshAccessToken's first guard: no incoming token, a
falsy one, or one trimming to the literal "undefined". -/
def noTokenGate : Option TokenStr → Bool
  | none => true
  | some t => tokenStrFalsy t || tokenTrimmedUndefined t

/-- Fixture environment: access secret 10, refresh secret 20, access TTL
100, refresh TTL 1000. -/
def envA : Env := ⟨10, 20, 100, 1000⟩

/-- Fixture account holding a stored refresh token issued at time 5. -/
def aliceRec : UserRec :=
  ⟨1, "alice", "a@x.com", "Alice A", bcryptHash "Abcd1234!", "http://c/a.png", "", [],
    some (.signed 1 20 5)⟩

/-- Fixture store holding only `aliceRec`. -/
def dbA : DB := ⟨[aliceRec], []⟩

/-- Fixture account with no stored refresh token (pre-login state). -/
def aliceFresh : UserRec := { aliceRec with refreshToken := none }

/-- Fixture store for the login run. -/
def dbLogin : DB := ⟨[aliceFresh], []⟩

/-- Fixture account violating every required-field rule of the schema
(used to exhibit that the token persist step skips validation). -/
def bobInvalidRec : UserRec := ⟨2, "bob", "", "", "", "", "", [], none⟩

/-- Fixture store holding only the schema-invalid account. -/
def dbInvalid : DB := ⟨[bobInvalidRec], []⟩

/-- Fixture account with both an avatar and a cover image on record. -/
def carolRec : UserRec :=
  ⟨3, "carol", "c@x.com", "Carol C", bcryptHash "Pw12345!", "http://c/old.png",
    "http://c/cover.png", [], none⟩

/-- Fixture store for the media-replacement runs. -/
def dbMedia : DB := ⟨[carolRec], []⟩

/-- Live hosted assets matching `carolRec`'s references. -/
def mediaAssets : List String := ["http://c/old.png", "http://c/cover.png"]

/-- An upload collaborator whose every call fails. -/
def failUpload : String → Option String := fun _ => none

/-- An upload collaborator mapping each local path to a hosted URL. -/
def okUpload : String → Option String := fun p => some ("http://cdn/" ++ p)

/-- A delete collaborator whose every call succeeds. -/
def okDelete : String → Bool := fun _ => true

/-- Fixture store with two accounts and one subscription edge 1 → 3. -/
def dbSubs : DB := ⟨[aliceRec, carolRec], [(1, 3)]⟩

theorem findById_eq_id {db : DB} {id : Nat} {u : UserRec}
    (h : findById db id = some u) : u._id = id := by
  unfold findById at h
  simpa using List.find?_some h

theorem find?_map_update {l : List UserRec} {id : Nat} {u : UserRec} (u' : UserRec)
    (h : l.find? (fun v => v._id == id) = some u) (hid : u'._id = u._id) :
    (l.map (fun v => if v._id == u'._id then u' else v)).find?
      (fun v => v._id == id) = some u' := by
  induction l with
  | nil => simp at h
  | cons w l ih =>
    cases hb : (w._id == id) with
    | true =>
      rw [List.find?_cons_of_pos (p := fun (v : UserRec) => v._id == id) _ hb] at h
      injection h with h1
      subst h1
      have hcv : (w._id == u'._id) = true := by
        rw [hid]; simp
      simp only [List.map_cons]
      rw [if_pos hcv]
      exact List.find?_cons_of_pos (p := fun (v : UserRec) => v._id == id) _
        (by show (u'._id == id) = true; rw [hid]; exact hb)
    | false =>
      rw [List.find?_cons_of_neg (p := fun (v : UserRec) => v._id == id) _ (by simp [hb])] at h
      have hu : u._id = id := by simpa using List.find?_some h
      have hw : (w._id == u'._id) = false := by
        rw [hid, hu]; exact hb
      simp only [List.map_cons]
      rw [if_neg (by simp [hw])]
      rw [List.find?_cons_of_neg (p := fun (v : UserRec) => v._id == id) _ (by simp [hb])]
      exact ih h

theorem findById_save {db : DB} {id : Nat} {u : UserRec} (u' : UserRec)
    (h : findById db id = some u) (hid : u'._id = u._id) :
    findById (saveUserRecord db u') id = some u' := by
  unfold findById saveUserRecord at *
  exact find?_map_update u' h hid

theorem mem_save_of_ne {db : DB} {u' v : UserRec} (hv : v ∈ db.users)
    (hne : (v._id == u'._id) = false) : v ∈ (saveUserRecord db u').users := by
  unfold saveUserRecord
  exact List.mem_map.mpr ⟨v, hv, by simp [hne]⟩

/-- C1: a refresh-rotation request whose incoming token verifies against
the refresh secret (signature and expiry) and whose claimed account exists,
but whose value differs from the refresh token stored on that account,
fails with the 401 reuse error "Refresh token is expired or used", and the
store is left unchanged (no tokens issued, stored value untouched). -/
theorem claim1_refresh_reuse_rejected (env : Env) (now : Nat) (db : DB)
    (t : TokenStr) (uid : Nat) (user : UserRec)
    (hverify : jwtVerify t env.refreshTokenSecret env.refreshTokenExpiry now = .ok uid)
    (hfound : findById db uid = some user)
    (hmismatch : user.refreshToken ≠ some t) :
    refreshAccessToken env now db (some t) =
      (.error ⟨401, "Refresh token is expired or used"⟩, db) := by
  cases t with
  | raw s => simp [jwtVerify] at hverify
  | signed u0 s0 i0 =>
    have hne : ((some (TokenStr.signed u0 s0 i0) : Option TokenStr) != user.refreshToken) = true := by
      simp only [bne_iff_ne, ne_eq]
      exact fun hEq => hmismatch hEq.symm
    simp [refreshAccessToken, tokenStrFalsy, tokenTrimmedUndefined, hverify, hfound, hne]

theorem claim1_witness :
    refreshAccessToken envA 7 dbA (some (.signed 1 20 3)) =
      (.error ⟨401, "Refresh token is expired or used"⟩, dbA) :=
  claim1_refresh_reuse_rejected envA 7 dbA (.signed 1 20 3) 1 aliceRec rfl rfl (by decide)

/-- C4: a refresh-rotation request whose incoming token is absent, falsy,
or trims to the literal "undefined" fails with the 401 error thrown before
the try block, for every environment, time and store; in particular no
signature verification, account lookup or state change takes place (the
result does not depend on env or db, and the store is returned intact). -/
theorem claim4_no_token_unauthorized (env : Env) (now : Nat) (db : DB)
    (incoming : Option TokenStr) (h : noTokenGate incoming = true) :
    refreshAccessToken env now db incoming =
      (.error ⟨401, "Unauthorized request, refresh token is undefined"⟩, db) := by
  cases incoming with
  | none => rfl
  | some t =>
    have h' : (tokenStrFalsy t || tokenTrimmedUndefined t) = true := by
      simpa [noTokenGate] using h
    simp [refreshAccessToken, h']

theorem claim4_witness :
    refreshAccessToken envA 7 dbA (some (.raw " undefined ")) =
      (.error ⟨401, "Unauthorized request, refresh token is undefined"⟩, dbA) :=
  claim4_no_token_unauthorized envA 7 dbA (some (.raw " undefined ")) (by rfl)

/-- C6: logout, given the authenticated principal's id (the guard has
already run; no token is consulted), always succeeds with a 200 response
and unsets the refresh-token field of that principal's account; every
user document with the principal's id ends up with no stored value. -/
theorem claim6_logout_always_clears (db : DB) (pid : Nat) :
    logoutUser db pid =
      (.ok (200, "User Logged Out"),
        { db with users := db.users.map (fun u =>
            if u._id == pid then { u with refreshToken := none } else u) })
    ∧ ∀ u ∈ (logoutUser db pid).2.users, u._id = pid → u.refreshToken = none := by
  refine ⟨rfl, ?_⟩
  intro u hu hid
  simp only [logoutUser, List.mem_map] at hu
  obtain ⟨v, hv, heq⟩ := hu
  by_cases h : (v._id == pid) = true
  · rw [if_pos h] at heq
    subst heq
    rfl
  · rw [if_neg h] at heq
    subst heq
    exact absurd (by simp [hid]) h

theorem claim6_witness :
    ({ aliceRec with refreshToken := none } : UserRec).refreshToken = none :=
  (claim6_logout_always_clears dbA 1).2 { aliceRec with refreshToken := none }
    (by decide) rfl

/-- C5: the step that persists a newly issued refresh token
(generateAccessAndRefreshToken, called by login and by refresh rotation)
saves the record with validation bypassed (`validateBeforeSave: false`
succeeds for any record, validated or not) and changes only the
refresh-token field: the stored record equals the old one with just
`refreshToken` replaced, the subscription collection is untouched, and
every other user document is preserved. -/
theorem claim5_persist_only_refresh_token (env : Env) (now : Nat) (db : DB)
    (uid : Nat) (user : UserRec) (hfound : findById db uid = some user) :
    generateAccessAndRefreshToken env now db uid =
      .ok (.signed user._id env.accessTokenSecret now,
        .signed user._id env.refreshTokenSecret now,
        saveUserRecord db { user with refreshToken := some (.signed user._id env.refreshTokenSecret now) })
    ∧ saveUser db { user with refreshToken := some (.signed user._id env.refreshTokenSecret now) } false =
        .ok (saveUserRecord db { user with refreshToken := some (.signed user._id env.refreshTokenSecret now) })
    ∧ findById (saveUserRecord db { user with refreshToken := some (.signed user._id env.refreshTokenSecret now) }) uid =
        some { user with refreshToken := some (.signed user._id env.refreshTokenSecret now) }
    ∧ (saveUserRecord db { user with refreshToken := some (.signed user._id env.refreshTokenSecret now) }).subs = db.subs
    ∧ ∀ v ∈ db.users, (v._id == uid) = false →
        v ∈ (saveUserRecord db { user with refreshToken := some (.signed user._id env.refreshTokenSecret now) }).users := by
  have hid : user._id = uid := findById_eq_id hfound
  refine ⟨?_, rfl, ?_, rfl, ?_⟩
  · simp [generateAccessAndRefreshToken, hfound, saveUser, jwtSign]
  · exact findById_save _ hfound rfl
  · intro v hv hne
    refine mem_save_of_ne hv ?_
    show (v._id == user._id) = false
    rw [hid]
    exact hne

theorem claim5_witness :
    userRecordValid bobInvalidRec = false
    ∧ generateAccessAndRefreshToken envA 4 dbInvalid 2 =
        .ok (.signed 2 10 4, .signed 2 20 4,
          saveUserRecord dbInvalid { bobInvalidRec with refreshToken := some (.signed 2 20 4) }) :=
  ⟨rfl, (claim5_persist_only_refresh_token envA 4 dbInvalid 2 bobInvalidRec rfl).1⟩

/-- C3: when the stored refresh token equals the presented one (well-signed
for the account, not expired), rotation succeeds, returns a fresh pair and
replaces the stored value with the fresh refresh token; and since the fresh
token carries a different issue time, presenting the old token again after
the rotation fails (rotation is not idempotent). -/
theorem claim3_rotation_replaces_and_rejects_stale (env : Env) (now now₂ : Nat) (db : DB)
    (uid iat : Nat) (user : UserRec)
    (hfound : findById db uid = some user)
    (hstored : user.refreshToken = some (.signed uid env.refreshTokenSecret iat))
    (hlive : now ≤ iat + env.refreshTokenExpiry)
    (hfresh : iat ≠ now) :
    refreshAccessToken env now db (some (.signed uid env.refreshTokenSecret iat)) =
      (.ok (.signed uid env.accessTokenSecret now, .signed uid env.refreshTokenSecret now),
        saveUserRecord db { user with refreshToken := some (.signed uid env.refreshTokenSecret now) })
    ∧ findById (saveUserRecord db { user with refreshToken := some (.signed uid env.refreshTokenSecret now) }) uid =
        some { user with refreshToken := some (.signed uid env.refreshTokenSecret now) }
    ∧ ∀ p, (refreshAccessToken env now₂
        (saveUserRecord db { user with refreshToken := some (.signed uid env.refreshTokenSecret now) })
        (some (.signed uid env.refreshTokenSecret iat))).1 ≠ .ok p := by
  have hid : user._id = uid := findById_eq_id hfound
  have hfound' := findById_save
    { user with refreshToken := some (.signed uid env.refreshTokenSecret now) } hfound rfl
  refine ⟨?_, hfound', ?_⟩
  · have hmatch : ((some (TokenStr.signed uid env.refreshTokenSecret iat) : Option TokenStr) !=
        user.refreshToken) = false := by
      rw [hstored]; simp
    have hnotexp : ¬ (iat + env.refreshTokenExpiry < now) := Nat.not_lt.mpr hlive
    simp [refreshAccessToken, jwtVerify, tokenStrFalsy, tokenTrimmedUndefined, hnotexp,
      hfound, hmatch, generateAccessAndRefreshToken, saveUser, jwtSign, hid]
  · intro p
    have hne : ((some (TokenStr.signed uid env.refreshTokenSecret iat) : Option TokenStr) !=
        ({ user with refreshToken := some (.signed uid env.refreshTokenSecret now) } : UserRec).refreshToken) = true := by
      simp [bne_iff_ne, hfresh]
    by_cases hexp : iat + env.refreshTokenExpiry < now₂
    · simp [refreshAccessToken, jwtVerify, tokenStrFalsy, tokenTrimmedUndefined, hexp]
    · simp [refreshAccessToken, jwtVerify, tokenStrFalsy, tokenTrimmedUndefined, hexp,
        hfound', hne]

theorem claim3_witness :
    refreshAccessToken envA 7 dbA (some (.signed 1 20 5)) =
      (.ok (.signed 1 10 7, .signed 1 20 7),
        saveUserRecord dbA { aliceRec with refreshToken := some (.signed 1 20 7) })
    ∧ (refreshAccessToken envA 9
        (saveUserRecord dbA { aliceRec with refreshToken := some (.signed 1 20 7) })
        (some (.signed 1 20 5))).1 ≠ .ok (.signed 1 10 9, .signed 1 20 9) :=
  ⟨(claim3_rotation_replaces_and_rejects_stale envA 7 9 dbA 1 5 aliceRec rfl rfl
      (by decide) (by decide)).1,
    (claim3_rotation_replaces_and_rejects_stale envA 7 9 dbA 1 5 aliceRec rfl rfl
      (by decide) (by decide)).2.2 _⟩

/-- C2 (code bug): with an account on record whose digest matches the
submitted password, login still fails: user.model.js assigns
isPasswordCorrect to `userSchema.method` instead of `userSchema.methods`,
so the document has no such method and the call raises a TypeError that
surfaces as a 500 error; no tokens are issued and the store is unchanged,
although the submitted password is correct for the stored digest. -/
theorem claim2_login_correct_creds_crashes :
    bcryptCompare "Abcd1234!" aliceFresh.password = true
    ∧ userInstanceMethods.contains "isPasswordCorrect" = false
    ∧ loginUser envA 3 dbLogin (some "alice") (some "a@x.com") "Abcd1234!" =
        (.error ⟨500, "user.isPasswordCorrect is not a function"⟩, dbLogin) :=
  ⟨rfl, rfl, rfl⟩

/-- C7 counterexample: the Access Guard's three failure cases do not all
produce the same reported outcome: on the same store, a token signed with
the wrong secret is reported as 401 "invalid signature" while a well-signed
token for a deleted account is reported as 401 "Invalid Access Token" —
the two reports differ, so the guard does distinguish a bad token from a
deleted account in what it reports. -/
theorem claim7_counterexample :
    verifyJwt envA 0 dbA (some (.signed 1 99 0)) none = .error ⟨401, "invalid signature"⟩
    ∧ findById dbA 42 = none
    ∧ verifyJwt envA 0 dbA (some (.signed 42 10 0)) none = .error ⟨401, "Invalid Access Token"⟩
    ∧ (ApiErr.mk 401 "invalid signature") ≠ (ApiErr.mk 401 "Invalid Access Token") :=
  ⟨rfl, rfl, rfl, by decide⟩

/-- C7 (amended): every failure of the Access Guard — missing token,
signature/expiry failure, account not found — carries status code 401
(the amendment: the status is uniform, but the attached message differs
between a bad token and a deleted account). -/
theorem claim7_amended_always_401 (env : Env) (now : Nat) (db : DB)
    (cookieToken headerToken : Option TokenStr) (e : ApiErr)
    (h : verifyJwt env now db cookieToken headerToken = .error e) :
    e.statusCode = 401 := by
  unfold verifyJwt at h
  repeat' split at h
  all_goals first
    | (injection h with h2; rw [← h2])
    | (exact absurd h (by simp))

theorem claim7_witness :
    (ApiErr.mk 401 "jwt malformed").statusCode = 401 :=
  claim7_amended_always_401 envA 0 dbA (some (.raw "garbage")) none
    (ApiErr.mk 401 "jwt malformed") rfl

/-- C9 counterexample: subscribing to a channel identifier that resolves to
no account fails with statusCode 400 ("Channel not found."), not with the
NotFound (404) class the claim states. -/
theorem claim9_counterexample :
    findById dbA 2 = none
    ∧ (subscribeChannel dbA 1 (some 2)).1 = .error ⟨400, "Channel not found."⟩
    ∧ (400 : Nat) ≠ 404 :=
  ⟨rfl, rfl, by decide⟩

/-- C9 (amended): subscribing to one's own account always fails; a channel
id that resolves to no account always fails with the 400 error
"Channel not found." (not 404); an existing (subscriber, channel) edge
always fails and the edge collection is unchanged; and only when all three
guards pass is exactly one new edge created (users untouched). -/
theorem claim9_amended_subscribe_guards :
    (∀ db sid, subscribeChannel db sid (some sid) =
        (.error ⟨400, "You cannot subscribe to your own channel."⟩, db))
    ∧ (∀ db sid cid, sid ≠ cid → findById db cid = none →
        subscribeChannel db sid (some cid) = (.error ⟨400, "Channel not found."⟩, db))
    ∧ (∀ db sid cid u, sid ≠ cid → findById db cid = some u →
        (sid, cid) ∈ db.subs →
        subscribeChannel db sid (some cid) =
          (.error ⟨400, "Already subscribed to this channel."⟩, db))
    ∧ (∀ db sid cid u, sid ≠ cid → findById db cid = some u →
        (sid, cid) ∉ db.subs →
        subscribeChannel db sid (some cid) =
          (.ok (sid, cid), { db with subs := (sid, cid) :: db.subs })) := by
  refine ⟨?_, ?_, ?_, ?_⟩
  · intro db sid
    simp [subscribeChannel]
  · intro db sid cid hne hfind
    simp [subscribeChannel, hne, hfind]
  · intro db sid cid u hne hfind hdup
    simp [subscribeChannel, hne, hfind, hdup]
  · intro db sid cid u hne hfind hdup
    simp [subscribeChannel, hne, hfind, hdup]

theorem claim9_witness :
    subscribeChannel dbSubs 1 (some 3) =
      (.error ⟨400, "Already subscribed to this channel."⟩, dbSubs)
    ∧ subscribeChannel dbSubs 3 (some 1) =
        (.ok (3, 1), { dbSubs with subs := (3, 1) :: dbSubs.subs })
    ∧ subscribeChannel dbSubs 1 (some 1) =
        (.error ⟨400, "You cannot subscribe to your own channel."⟩, dbSubs) :=
  ⟨claim9_amended_subscribe_guards.2.2.1 dbSubs 1 3 carolRec (by decide) rfl (by decide),
    claim9_amended_subscribe_guards.2.2.2 dbSubs 3 1 aliceRec (by decide) rfl (by decide),
    claim9_amended_subscribe_guards.1 dbSubs 1⟩

/-- C8 counterexample: on an account whose stored avatar is
"http://c/old.png", a replacement request whose upload fails still deletes
the previous asset first — the trace shows the delete call preceding the
upload call, the old asset is gone from the live-asset set although the
upload failed, and the request errors with the store unchanged.  So the
code does not upload first, and a failed upload does leave the account
without its existing image asset. -/
theorem claim8_counterexample :
    (changeUserAvatar dbMedia mediaAssets failUpload okDelete 3 (some "tmp/new.png")).trace =
      [.deleteAsset "http://c/old.png", .uploadAsset "tmp/new.png"]
    ∧ (changeUserAvatar dbMedia mediaAssets failUpload okDelete 3 (some "tmp/new.png")).result =
        .error ⟨500, "Cannot read properties of null (reading 'url')"⟩
    ∧ (changeUserAvatar dbMedia mediaAssets failUpload okDelete 3 (some "tmp/new.png")).assets =
        ["http://c/cover.png"]
    ∧ "http://c/old.png" ∉
        (changeUserAvatar dbMedia mediaAssets failUpload okDelete 3 (some "tmp/new.png")).assets
    ∧ (changeUserAvatar dbMedia mediaAssets failUpload okDelete 3 (some "tmp/new.png")).db = dbMedia
    ∧ carolRec.avatar = "http://c/old.png"
    ∧ carolRec.avatar ∈ mediaAssets :=
  ⟨rfl, rfl, rfl, by decide, rfl, rfl, by decide⟩

/-- C8 (amended): in avatar and cover-image replacement the previous asset
(when present, and when its cloud delete succeeds) is deleted BEFORE the
new asset is uploaded — the media trace is always delete-then-upload; a
failed upload leaves the store unchanged but the previous asset already
removed; the new reference is persisted only after a successful upload. -/
theorem claim8_amended_delete_precedes_upload :
    (∀ db assets upload del uid path user, findById db uid = some user →
      user.avatar ≠ "" → del user.avatar = true →
      (changeUserAvatar db assets upload del uid (some path)).trace =
          [.deleteAsset user.avatar, .uploadAsset path]
        ∧ (upload path = none →
            (changeUserAvatar db assets upload del uid (some path)).db = db
            ∧ (changeUserAvatar db assets upload del uid (some path)).assets =
                assets.erase user.avatar)
        ∧ (∀ url, upload path = some url → url ≠ "" →
            (changeUserAvatar db assets upload del uid (some path)).result =
                .ok (200, "Avatar Updated Successfully")
            ∧ (changeUserAvatar db assets upload del uid (some path)).db =
                { db with users := db.users.map (fun v =>
                    if v._id == uid then { v with avatar := url } else v) }
            ∧ (changeUserAvatar db assets upload del uid (some path)).assets =
                url :: assets.erase user.avatar))
    ∧ (∀ db assets upload del uid path user, findById db uid = some user →
      user.coverImage ≠ "" → del user.coverImage = true →
      (changeUserCoverImage db assets upload del uid (some path)).trace =
          [.deleteAsset user.coverImage, .uploadAsset path]
        ∧ (upload path = none →
            (changeUserCoverImage db assets upload del uid (some path)).db = db
            ∧ (changeUserCoverImage db assets upload del uid (some path)).assets =
                assets.erase user.coverImage)
        ∧ (∀ url, upload path = some url → url ≠ "" →
            (changeUserCoverImage db assets upload del uid (some path)).result =
                .ok (200, "Avatar Updated Successfully")
            ∧ (changeUserCoverImage db assets upload del uid (some path)).db =
                { db with users := db.users.map (fun v =>
                    if v._id == uid then { v with coverImage := url } else v) }
            ∧ (changeUserCoverImage db assets upload del uid (some path)).assets =
                url :: assets.erase user.coverImage)) := by
  constructor
  · intro db assets upload del uid path user hfound hav hdel
    have hav' : (user.avatar != "") = true := by simp [bne_iff_ne]; exact hav
    refine ⟨?_, ?_, ?_⟩
    · cases hup : upload path with
      | none => simp [changeUserAvatar, hfound, hav', hdel, hup]
      | some url =>
        cases hu : (url == "") with
        | true => simp [changeUserAvatar, hfound, hav', hdel, hup, hu]
        | false => simp [changeUserAvatar, hfound, hav', hdel, hup, hu]
    · intro hup
      simp [changeUserAvatar, hfound, hav', hdel, hup]
    · intro url hup hurl
      have hu : (url == "") = false := by simp [hurl]
      simp [changeUserAvatar, hfound, hav', hdel, hup, hu]
  · intro db assets upload del uid path user hfound hav hdel
    have hav' : (user.coverImage != "") = true := by simp [bne_iff_ne]; exact hav
    refine ⟨?_, ?_, ?_⟩
    · cases hup : upload path with
      | none => simp [changeUserCoverImage, hfound, hav', hdel, hup]
      | some url =>
        cases hu : (url == "") with
        | true => simp [changeUserCoverImage, hfound, hav', hdel, hup, hu]
        | false => simp [changeUserCoverImage, hfound, hav', hdel, hup, hu]
    · intro hup
      simp [changeUserCoverImage, hfound, hav', hdel, hup]
    · intro url hup hurl
      have hu : (url == "") = false := by simp [hurl]
      simp [changeUserCoverImage, hfound, hav', hdel, hup, hu]

theorem claim8_witness :
    (changeUserAvatar dbMedia mediaAssets okUpload okDelete 3 (some "new.png")).trace =
      [.deleteAsset "http://c/old.png", .uploadAsset "new.png"]
    ∧ (changeUserCoverImage dbMedia mediaAssets okUpload okDelete 3 (some "cov.png")).trace =
        [.deleteAsset "http://c/cover.png", .uploadAsset "cov.png"] :=
  ⟨((claim8_amended_delete_precedes_upload).1 dbMedia mediaAssets okUpload okDelete 3
      "new.png" carolRec rfl (by decide) rfl).1,
    ((claim8_amended_delete_precedes_upload).2 dbMedia mediaAssets okUpload okDelete 3
      "cov.png" carolRec rfl (by decide) rfl).1⟩

theorem upper_not_blank {p : String} (h : hasUppercaseChar p = true) : isBlank p = false := by
  simp only [hasUppercaseChar, List.any_eq_true] at h
  obtain ⟨c, hc, hAZ⟩ := h
  simp only [Bool.and_eq_true, decide_eq_true_eq] at hAZ
  by_contra hb
  rw [Bool.not_eq_false] at hb
  simp only [isBlank, List.all_eq_true] at hb
  have hw := hb c hc
  simp only [Char.isWhitespace, Bool.or_eq_true, decide_eq_true_eq] at hw
  rcases hw with ((rfl | rfl) | rfl) | rfl <;> exact absurd hAZ.1 (by decide)

theorem pwRequired_of_blank (p : String) (hb : isBlank p = true) :
    passwordErrors p = ["- password is required and should not be empty."] := by
  simp [passwordErrors, hb]

theorem pwErrors_eq_ruleList (p : String) (hb : isBlank p = false) :
    passwordErrors p =
      (if 8 ≤ p.length ∧ p.length ≤ 100 then [] else
        ["- password must be between 8 and 100 characters."]) ++
      (if hasUppercaseChar p = true then [] else
        ["- password must contain at least one uppercase letter."]) ++
      (if hasLowercaseChar p = true then [] else
        ["- password must contain at least one lowercase letter."]) ++
      (if hasDigitChar p = true then [] else
        ["- password must contain at least one number."]) ++
      (if hasSpecialChar p = true then [] else
        ["- password must contain at least one special character."]) := by
  by_cases hlen : 8 ≤ p.length ∧ p.length ≤ 100
  · have h8 : ¬ p.length < 8 := by omega
    have h100 : ¬ p.length > 100 := by omega
    rcases Bool.eq_false_or_eq_true (hasUppercaseChar p) with hu | hu <;>
      rcases Bool.eq_false_or_eq_true (hasLowercaseChar p) with hl | hl <;>
        rcases Bool.eq_false_or_eq_true (hasDigitChar p) with hd | hd <;>
          rcases Bool.eq_false_or_eq_true (hasSpecialChar p) with hs | hs <;>
            simp [passwordErrors, hb, hu, hl, hd, hs, hlen, h8, h100]
  · have hor : p.length < 8 ∨ p.length > 100 := by omega
    rcases Bool.eq_false_or_eq_true (hasUppercaseChar p) with hu | hu <;>
      rcases Bool.eq_false_or_eq_true (hasLowercaseChar p) with hl | hl <;>
        rcases Bool.eq_false_or_eq_true (hasDigitChar p) with hd | hd <;>
          rcases Bool.eq_false_or_eq_true (hasSpecialChar p) with hs | hs <;>
            simp [passwordErrors, hb, hu, hl, hd, hs, hlen, hor]

theorem pwErrors_nil_iff (p : String) :
    passwordErrors p = [] ↔ specPasswordAccepted p = true := by
  constructor
  · intro h
    by_cases hb : isBlank p = true
    · rw [pwRequired_of_blank p hb] at h
      simp at h
    · rw [Bool.not_eq_true] at hb
      rw [pwErrors_eq_ruleList p hb] at h
      simp only [List.append_eq_nil, ite_eq_left_iff, List.cons_ne_nil, imp_false,
        not_not, Bool.not_eq_true, Bool.not_eq_false] at h
      obtain ⟨⟨⟨⟨h1, h2⟩, h3⟩, h4⟩, h5⟩ := h
      simp only [specPasswordAccepted, Bool.and_eq_true, decide_eq_true_eq]
      exact ⟨⟨⟨⟨⟨h1.1, h1.2⟩, h2⟩, h3⟩, h4⟩, h5⟩
  · intro h
    simp only [specPasswordAccepted, Bool.and_eq_true, decide_eq_true_eq] at h
    obtain ⟨⟨⟨⟨⟨h8, h100⟩, hu⟩, hl⟩, hd⟩, hs⟩ := h
    have hb := upper_not_blank hu
    rw [pwErrors_eq_ruleList p hb]
    have hlen : 8 ≤ p.length ∧ p.length ≤ 100 := ⟨h8, h100⟩
    simp [hlen, hu, hl, hd, hs]

/-- C10 counterexample: the empty password violates the length rule
(its length is below 8), yet the validator does not list the length-rule
message — it lists only the single required-message — so a violating input
is not reported with one message per violated rule. -/
theorem claim10_counterexample :
    validateRegistrationInput "Good Name" "gooduser" "g@x.com" "" =
      ["- password is required and should not be empty."]
    ∧ "".length < 8
    ∧ "- password must be between 8 and 100 characters." ∉
        validateRegistrationInput "Good Name" "gooduser" "g@x.com" "" :=
  ⟨by decide, by decide, by decide⟩

/-- C10 (amended): the validator accepts a password exactly when its length
is between 8 and 100 and it has at least one uppercase letter, one
lowercase letter, one digit and one special character from the fixed set;
a blank (empty or whitespace-only) password yields the single
required-message; a non-blank password yields exactly one message per
violated rule; the password messages are the final section of the full
validator output; and a nonempty violation list makes registration fail
with a 400 error carrying the joined messages, before any account lookup
or creation (the store is returned unchanged). -/
theorem claim10_amended_password_rules :
    (∀ p, passwordErrors p = [] ↔ specPasswordAccepted p = true)
    ∧ (∀ p, isBlank p = true →
        passwordErrors p = ["- password is required and should not be empty."])
    ∧ (∀ p, isBlank p = false →
        passwordErrors p =
          (if 8 ≤ p.length ∧ p.length ≤ 100 then [] else
            ["- password must be between 8 and 100 characters."]) ++
          (if hasUppercaseChar p = true then [] else
            ["- password must contain at least one uppercase letter."]) ++
          (if hasLowercaseChar p = true then [] else
            ["- password must contain at least one lowercase letter."]) ++
          (if hasDigitChar p = true then [] else
            ["- password must contain at least one number."]) ++
          (if hasSpecialChar p = true then [] else
            ["- password must contain at least one special character."]))
    ∧ (∀ f u e p, validateRegistrationInput f u e p =
        fullNameErrors f ++ usernameErrors u ++ emailErrors e ++ passwordErrors p)
    ∧ (∀ db oracle fid f u e p ap cp, validateRegistrationInput f u e p ≠ [] →
        registerUser db oracle fid f u e p ap cp =
          (.error ⟨400, "\n\n" ++ String.intercalate "\n"
            (validateRegistrationInput f u e p) ++ "\n\n"⟩, db)) := by
  refine ⟨pwErrors_nil_iff, pwRequired_of_blank, pwErrors_eq_ruleList,
    fun f u e p => rfl, ?_⟩
  intro db oracle fid f u e p ap cp h
  have h' : (validateRegistrationInput f u e p != []) = true := by
    simp only [bne_iff_ne, ne_eq]
    exact h
  simp [registerUser, h']

theorem claim10_witness :
    passwordErrors "Abcd123!" = []
    ∧ registerUser dbLogin okUpload 9 "Good Name" "gooduser" "g@x.com" "" none none =
        (.error ⟨400, "\n\n" ++ String.intercalate "\n"
          (validateRegistrationInput "Good Name" "gooduser" "g@x.com" "") ++ "\n\n"⟩, dbLogin) :=
  ⟨(claim10_amended_password_rules.1 "Abcd123!").mpr (by decide),
    claim10_amended_password_rules.2.2.2.2 dbLogin okUpload 9
      "Good Name" "gooduser" "g@x.com" "" none none (by decide)⟩
